import Mathlib

/-!
# QuantPulse client runtime: a shallow embedding

This file embeds the stateful core of `src/static/js/quantpulse.js` in Lean:
the TTL-scoped `localStorage` cache (`QuantPulse.storage`), the WebSocket
connection manager (`QuantPulse.websocket`), the rate-limiting wrappers
(`QuantPulse.utils.debounce` / `throttle`), the request helper
(`QuantPulse.api.request`) and `calculatePercentageChange`.  Timestamps are
naturals (milliseconds); JS values are a small inductive; the browser's
timer queue is made explicit as lists of pending timers processed in time
order.  Theorems at the end settle the specification claims.
-/

namespace QP

/-- A (serializable) JavaScript value, as stored/parsed by `JSON`.
Numbers are rationals (we never need float rounding for the claims). -/
inductive JsVal : Type
  | null : JsVal
  | bool : Bool → JsVal
  | num : ℚ → JsVal
  | str : String → JsVal
  deriving DecidableEq, Repr

/-! ## `QuantPulse.storage` (quantpulse.js lines 574-611)

`localStorage` maps string keys to JSON-serialized records
`{value, expiry}`.  `JSON.stringify`/`JSON.parse` round-trip, so the store
is modelled as an association list from keys to the parsed record. -/

/-- The record `{ value: value, expiry: ... }` that `storage.set` writes
(line 576-579); `expiry: null` is `Option.none`. -/
structure CacheData : Type where
  value : JsVal
  expiry : Option Nat
  deriving DecidableEq, Repr

/-- The backing `localStorage`: an association list keyed by the raw
(namespaced) key. -/
abbrev Store : Type := List (String × CacheData)

/-- `localStorage.setItem`: overwrites any previous binding of `k`. -/
def setItem (st : Store) (k : String) (v : CacheData) : Store :=
  (k, v) :: st.filter (fun p => !(p.1 == k))

/-- `localStorage.getItem` followed by `JSON.parse`. -/
def getItem (st : Store) (k : String) : Option CacheData :=
  (st.find? (fun p => p.1 == k)).map (·.2)

/-- `localStorage.removeItem`. -/
def removeItem (st : Store) (k : String) : Store :=
  st.filter (fun p => !(p.1 == k))

/-- JS truthiness of a number-or-null field (`null` and `0` are falsy). -/
def jsTruthyNum : Option Nat → Bool
  | none => false
  | some n => n != 0

/-- `QuantPulse.storage.set(key, value, expiry)` (lines 575-581):
stores `{value, expiry: expiry ? Date.now() + expiry : null}` under
`qp_${key}`.  `now` is `Date.now()`. -/
def storageSet (st : Store) (key : String) (value : JsVal)
    (expiry : Option Nat) (now : Nat) : Store :=
  setItem st ("qp_" ++ key)
    ⟨value, if jsTruthyNum expiry then some (now + expiry.getD 0) else none⟩

/-- `QuantPulse.storage.get(key)` (lines 583-597): returns the stored value
unless the entry is missing or `data.expiry && Date.now() > data.expiry`,
in which case the stale key is removed (`this.remove(key)`) and `null` is
returned.  The updated store is returned alongside the result. -/
def storageGet (st : Store) (key : String) (now : Nat) :
    Option JsVal × Store :=
  match getItem st ("qp_" ++ key) with
  | none => (none, st)
  | some data =>
    if jsTruthyNum data.expiry && decide (now > data.expiry.getD 0) then
      (none, removeItem st ("qp_" ++ key))
    else
      (some data.value, st)

/-- `QuantPulse.storage.remove(key)` (lines 599-601). -/
def storageRemove (st : Store) (key : String) : Store :=
  removeItem st ("qp_" ++ key)

theorem getItem_setItem_self (st : Store) (k : String) (v : CacheData) :
    getItem (setItem st k v) k = some v := by
  simp [getItem, setItem, List.find?]

theorem getItem_removeItem_self (st : Store) (k : String) :
    getItem (removeItem st k) k = none := by
  simp only [getItem, removeItem, Option.map_eq_none']
  rw [List.find?_eq_none]
  intro p hp
  have := List.of_mem_filter hp
  simpa using this

/-! ## `QuantPulse.websocket` (quantpulse.js lines 496-569)

The manager keeps a current connection (modelled by its `readyState`), a
reconnect counter, and the implicit browser timer queue (modelled as the
list of due times of pending `setTimeout` callbacks scheduled by
`attemptReconnect`, each of which invokes `connect(url)` when it fires).
External stimuli — caller API calls and transport events — are processed
in timestamp order; before each stimulus every timer that has come due
fires. -/

/-- A WebSocket's `readyState`. -/
inductive ReadyState : Type
  | CONNECTING : ReadyState
  | OPEN : ReadyState
  | CLOSED : ReadyState
  deriving DecidableEq, Repr

/-- Fixed configuration fields of the manager object
(`maxReconnectAttempts = 5`, `reconnectInterval = 5000` in the source). -/
structure WSConfig : Type where
  maxReconnectAttempts : Nat
  reconnectInterval : Nat
  deriving DecidableEq, Repr

/-- Mutable state of `QuantPulse.websocket` plus the pending reconnect
timers (due times of the `setTimeout` calls made on line 551). -/
structure WSState : Type where
  connection : Option ReadyState
  reconnectAttempts : Nat
  timers : List Nat
  deriving DecidableEq, Repr

/-- Initial state (lines 497-498): `connection: null, reconnectAttempts: 0`
and no timer pending. -/
def initialWS : WSState := ⟨none, 0, []⟩

/-- `connect(url)` (lines 502-533): a no-op when the current connection is
OPEN, otherwise replaces `this.connection` with a fresh socket in the
CONNECTING state.  Handler installation is implicit: `handleOpen` /
`handleClose` below are the installed `onopen` / `onclose` bodies. -/
def wsConnect (s : WSState) : WSState :=
  match s.connection with
  | some .OPEN => s
  | _ => { s with connection := some .CONNECTING }

/-- `attemptReconnect(url)` (lines 548-556): when
`reconnectAttempts < maxReconnectAttempts`, increments the counter and
schedules exactly one `setTimeout(..., reconnectInterval)` whose callback
is `connect(url)`; otherwise does nothing.  No timer handle is stored and
no timer is ever cleared. -/
def attemptReconnect (cfg : WSConfig) (now : Nat) (s : WSState) : WSState :=
  if s.reconnectAttempts < cfg.maxReconnectAttempts then
    { s with
      reconnectAttempts := s.reconnectAttempts + 1,
      timers := s.timers ++ [now + cfg.reconnectInterval] }
  else s

/-- `disconnect()` (lines 535-540): closes the current connection (the
transport will later deliver a close event to the handlers still attached
to the closed socket) and nulls `this.connection`.  Nothing else: no flag
is set and no timer is cleared. -/
def wsDisconnect (s : WSState) : WSState :=
  match s.connection with
  | some _ => { s with connection := none }
  | none => s

/-- The `onopen` handler body (lines 509-513): the socket is now OPEN and
`this.reconnectAttempts = 0` (then the `onConnect` hook runs). -/
def handleOpen (s : WSState) : WSState :=
  { s with connection := some .OPEN, reconnectAttempts := 0 }

/-- The `onclose` handler body (lines 524-528): runs for every close —
peer-initiated, network failure or a close caused by `disconnect()` —
and unconditionally calls `onDisconnect()` then `attemptReconnect(url)`. -/
def handleClose (cfg : WSConfig) (now : Nat) (s : WSState) : WSState :=
  attemptReconnect cfg now
    { s with connection := s.connection.map (fun _ => .CLOSED) }

/-- Fires every pending reconnect timer whose due time has passed: each
one's callback runs `connect(url)` (line 551-554). -/
def fireDueTimers (now : Nat) (s : WSState) : WSState :=
  let due := s.timers.filter (fun d => d ≤ now)
  let remaining := s.timers.filter (fun d => !(d ≤ now : Bool))
  due.foldl (fun st _ => wsConnect st) { s with timers := remaining }

/-- An external stimulus: a caller API call or a transport event. -/
inductive WSEvent : Type
  | userConnect : WSEvent
  | userDisconnect : WSEvent
  | wsOpen : WSEvent
  | wsClose : WSEvent
  deriving DecidableEq, Repr

/-- Process one timestamped stimulus: first fire the timers that have come
due, then run the corresponding source code. -/
def wsStep (cfg : WSConfig) (s : WSState) (ev : Nat × WSEvent) : WSState :=
  let s1 := fireDueTimers ev.1 s
  match ev.2 with
  | .userConnect => wsConnect s1
  | .userDisconnect => wsDisconnect s1
  | .wsOpen => handleOpen s1
  | .wsClose => handleClose cfg ev.1 s1

/-- Run a timestamped stimulus trace from the initial state. -/
def wsRun (cfg : WSConfig) (evs : List (Nat × WSEvent)) : WSState :=
  evs.foldl (wsStep cfg) initialWS

/-- Reconnect timers still outstanding (scheduled, not yet fired) at `now`. -/
def outstandingTimers (now : Nat) (s : WSState) : List Nat :=
  s.timers.filter (fun d => now < d)

theorem wsConnect_reconnectAttempts (s : WSState) :
    (wsConnect s).reconnectAttempts = s.reconnectAttempts := by
  unfold wsConnect
  match s.connection with
  | some .OPEN => rfl
  | some .CONNECTING => rfl
  | some .CLOSED => rfl
  | none => rfl

theorem wsConnect_timers (s : WSState) :
    (wsConnect s).timers = s.timers := by
  unfold wsConnect
  match s.connection with
  | some .OPEN => rfl
  | some .CONNECTING => rfl
  | some .CLOSED => rfl
  | none => rfl

theorem foldl_wsConnect_reconnectAttempts (l : List Nat) (st : WSState) :
    (l.foldl (fun t _ => wsConnect t) st).reconnectAttempts =
      st.reconnectAttempts := by
  induction l generalizing st with
  | nil => rfl
  | cons d ds ih =>
    simp only [List.foldl_cons]
    rw [ih, wsConnect_reconnectAttempts]

theorem fireDueTimers_reconnectAttempts (now : Nat) (s : WSState) :
    (fireDueTimers now s).reconnectAttempts = s.reconnectAttempts := by
  unfold fireDueTimers
  exact foldl_wsConnect_reconnectAttempts _ _

/-! ## `QuantPulse.utils.debounce` / `throttle` (quantpulse.js lines 70-96)

Each wrapper invocation is a timestamped event carrying the argument list
and the receiver (`this` binding) of the call.  Running the wrapper over a
trace of invocations (sorted by time) produces the trace of underlying
`func` calls; a pending `setTimeout` whose due time has been reached fires
before the next invocation is handled (and at a shared timestamp the timer
callback, queued earlier, runs first). -/

/-- One invocation of a wrapper: its timestamp, argument list `args` and
receiver `recv` (the `this` the wrapper was called on). -/
structure CallEv (α β : Type) : Type where
  time : Nat
  args : α
  recv : β
  deriving DecidableEq, Repr

/-- One call of the wrapped `func`: when it ran, with which arguments, and
with which receiver (`none` = the global object / `undefined`, as for a
plain function call `func(...)`). -/
structure FireEv (α β : Type) : Type where
  time : Nat
  args : α
  recv : Option β
  deriving DecidableEq, Repr

/-- `debounce(func, wait)` (lines 70-80).  State: the single pending
`timeout`, as `some (dueTime, capturedArgs)`.  Each invocation at time `t`
first lets a pending timer that came due fire — `later` runs
`clearTimeout(timeout); func(...args)`, a plain call, so the receiver is
`none` — then runs the wrapper body: `clearTimeout(timeout)` (cancelling
any still-pending timer) and `timeout = setTimeout(later, wait)` capturing
the current `args`.  After the last invocation the surviving timer fires. -/
def debounceRun {α β : Type} (wait : Nat) :
    List (CallEv α β) → Option (Nat × α) → List (FireEv α β)
  | [], none => []
  | [], some (due, a) => [⟨due, a, none⟩]
  | e :: rest, pending =>
    let fired : List (FireEv α β) :=
      match pending with
      | some (due, a) => if due ≤ e.time then [⟨due, a, none⟩] else []
      | none => []
    fired ++ debounceRun wait rest (some (e.time + wait, e.args))

/-- The throttle closure state: the `inThrottle` flag and the due time of
the pending `setTimeout(() => inThrottle = false, limit)` reset, if any. -/
structure ThrottleState : Type where
  inThrottle : Bool
  resetAt : Option Nat
  deriving DecidableEq, Repr

/-- `throttle(func, limit)` (lines 85-96).  Before an invocation at time
`t` is handled, a pending reset whose due time has been reached (`≤ t`)
fires, clearing `inThrottle`.  Then the body: if `!inThrottle`,
`func.apply(context, args)` runs immediately (receiver preserved),
`inThrottle = true` and the reset is scheduled `limit` later; otherwise
the invocation is dropped. -/
def throttleRun {α β : Type} (limit : Nat) :
    List (CallEv α β) → ThrottleState → List (FireEv α β)
  | [], _ => []
  | e :: rest, s =>
    let s1 : ThrottleState :=
      match s.resetAt with
      | some r => if r ≤ e.time then ⟨false, none⟩ else s
      | none => s
    if s1.inThrottle then
      throttleRun limit rest s1
    else
      ⟨e.time, e.args, some e.recv⟩ ::
        throttleRun limit rest ⟨true, some (e.time + limit)⟩

/-- The throttle closure's initial state: `inThrottle` undefined (falsy),
no reset pending. -/
def throttleInit : ThrottleState := ⟨false, none⟩

/-! ## `QuantPulse.api.request` (quantpulse.js lines 157-222) -/

/-- JavaScript's `String.prototype.startsWith`: a prefix test on the
character sequence. -/
def jsStartsWith (s p : String) : Bool := p.data.isPrefixOf s.data

/-- JavaScript's `String.prototype.includes`: a substring test on the
character sequence. -/
def jsIncludes (s sub : String) : Bool :=
  s.data.tails.any (fun t => sub.data.isPrefixOf t)

/-- URL resolution (line 176):
`endpoint.startsWith('/') ? QuantPulse.config.apiBaseUrl + endpoint : endpoint`. -/
def requestUrl (apiBaseUrl endpoint : String) : String :=
  if jsStartsWith endpoint "/" then apiBaseUrl ++ endpoint else endpoint

/-- Modelled from the spec: an endpoint is an *absolute reference* when it
carries a scheme (e.g. `https://other/y`), i.e. contains `://`.  Used only
to compare the spec's resolution rule with the source's. -/
def isAbsoluteRef (endpoint : String) : Bool :=
  jsIncludes endpoint "://"

/-- Modelled from the spec: resolution as §4.2/§6 word it — relative
references are prefixed with the base path, absolute references bypass
it. -/
def specResolveUrl (apiBaseUrl endpoint : String) : String :=
  if isAbsoluteRef endpoint then endpoint else apiBaseUrl ++ endpoint

/-- A settled HTTP exchange as seen by the `fetch` promise: either the
transport failed (fetch rejects with a `TypeError`), or a response arrived
with a status code and a parsed JSON body. -/
inductive FetchOutcome : Type
  | netFail : String → FetchOutcome
  | resp : Nat → JsVal → FetchOutcome
  deriving DecidableEq, Repr

/-- A rejected promise value: either the `TypeError` produced by `fetch`
on a transport failure, or the `Error` thrown in the response handler. -/
inductive JsError : Type
  | typeError : String → JsError
  | error : String → JsError
  deriving DecidableEq, Repr

/-- `Response.ok`: status in the inclusive range 200-299. -/
def responseOk (status : Nat) : Bool :=
  200 ≤ status && status ≤ 299

/-- The settled result of `QuantPulse.api.request` (lines 178-184): a
transport rejection passes through untouched; a non-ok response throws
`new Error(\x7bHTTP error! status: $\x7bstatus\x7d\x7d)`; otherwise the
parsed body is the result. -/
def requestResult (outcome : FetchOutcome) : Except JsError JsVal :=
  match outcome with
  | .netFail msg => .error (.typeError msg)
  | .resp status body =>
    if !(responseOk status) then
      .error (.error ("HTTP error! status: " ++ toString status))
    else
      .ok body

/-- The `HttpError\x7bstatus\x7d` of the spec's taxonomy: the exact `Error`
the source throws for status `status`. -/
def HttpError (status : Nat) : JsError :=
  .error ("HTTP error! status: " ++ toString status)

/-- The `TransportError` of the spec's taxonomy: the `TypeError` with
which `fetch` rejects on a connectivity failure. -/
def TransportError (msg : String) : JsError :=
  .typeError msg

/-- The discriminator available to callers (`instanceof TypeError`). -/
def JsError.isTypeError : JsError → Bool
  | .typeError _ => true
  | .error _ => false

/-! ## `QuantPulse.utils.calculatePercentageChange` (lines 148-151) -/

/-- `calculatePercentageChange(current, previous)`: guarded division.  JS
numbers are modelled as rationals; the guard `!previous || previous === 0`
is truth-value equivalent to `previous = 0` there. -/
def calculatePercentageChange (current previous : ℚ) : ℚ :=
  if previous = 0 then 0 else ((current - previous) / previous) * 100

/-! ## Claims -/

/-- Claim C10 (confirmed): `calculatePercentageChange(current, previous)`
never divides by zero — whenever `previous` is `0` (the only falsy
rational) the guard returns `0`, and otherwise the result is
`((current - previous) / previous) * 100`. -/
theorem C10_calculatePercentageChange_guard (current previous : ℚ) :
    (previous = 0 → calculatePercentageChange current previous = 0) ∧
    (previous ≠ 0 → calculatePercentageChange current previous =
      ((current - previous) / previous) * 100) := by
  constructor
  · intro h
    simp [calculatePercentageChange, h]
  · intro h
    simp [calculatePercentageChange, h]

/-- Witness for C10 at concrete inputs: `(50, 40) ↦ 25` through the
formula branch, `(7, 0) ↦ 0` through the guard branch. -/
theorem C10_calculatePercentageChange_guard_witness :
    calculatePercentageChange 50 40 = 25 ∧ calculatePercentageChange 7 0 = 0 := by
  constructor
  · have h := (C10_calculatePercentageChange_guard 50 40).2 (by norm_num)
    rw [h]
    norm_num
  · exact (C10_calculatePercentageChange_guard 7 0).1 rfl

/-- Counterexample for C5 as stated: the endpoint `"x"` is a relative
reference (it has no scheme, so it is not an absolute reference), yet the
source does not prefix the base path — it only prefixes endpoints that
start with `'/'`.  Hence "bypasses the base path exactly when the endpoint
is already an absolute reference" is false, and the source resolution
differs from the spec-worded one at `"x"`. -/
theorem C5_counterexample :
    requestUrl "/api/v1" "x" = "x" ∧
    isAbsoluteRef "x" = false ∧
    specResolveUrl "/api/v1" "x" ≠ requestUrl "/api/v1" "x" := by
  refine ⟨by decide, by decide, by decide⟩

/-- Claim C5 as amended (corrected): the request client prefixes the
configured base path exactly when the endpoint starts with `'/'`; every
other endpoint — absolute URLs included — is used unchanged.  In
particular `get('/x')` under base `/api/v1` targets `/api/v1/x` and
`get('https://other/y')` targets `https://other/y` unchanged. -/
theorem C5_requestUrl_resolution (base endpoint : String) :
    (jsStartsWith endpoint "/" = true → requestUrl base endpoint = base ++ endpoint) ∧
    (jsStartsWith endpoint "/" = false → requestUrl base endpoint = endpoint) ∧
    requestUrl "/api/v1" "/x" = "/api/v1/x" ∧
    requestUrl "/api/v1" "https://other/y" = "https://other/y" := by
  refine ⟨?_, ?_, by decide, by decide⟩
  · intro h
    simp [requestUrl, h]
  · intro h
    simp [requestUrl, h]

/-- Witness for C5 (amended) at the spec's own two examples. -/
theorem C5_requestUrl_resolution_witness :
    requestUrl "/api/v1" "/x" = "/api/v1" ++ "/x" ∧
    requestUrl "/api/v1" "https://other/y" = "https://other/y" :=
  ⟨(C5_requestUrl_resolution "/api/v1" "/x").1 (by decide),
   (C5_requestUrl_resolution "/api/v1" "https://other/y").2.1 (by decide)⟩

/-- Claim C6 (confirmed): a response with a non-success status rejects
with the `HttpError` carrying that status (the `Error` thrown on line
181, whose message embeds the status); a transport-level failure rejects
with the `TransportError` (the `TypeError` from `fetch`); the two kinds
are distinguishable by the caller (`instanceof TypeError` discriminates);
and on success the result is the parsed response body. -/
theorem C6_request_error_classification (status : Nat) (body : JsVal) (msg : String) :
    (responseOk status = false →
      requestResult (.resp status body) = .error (HttpError status)) ∧
    (requestResult (.netFail msg) = .error (TransportError msg)) ∧
    (HttpError status).isTypeError = false ∧
    (TransportError msg).isTypeError = true ∧
    (responseOk status = true → requestResult (.resp status body) = .ok body) := by
  refine ⟨?_, rfl, rfl, rfl, ?_⟩
  · intro h
    simp [requestResult, h, HttpError]
  · intro h
    simp [requestResult, h]

/-- Witness for C6: a 404 rejects with `HttpError 404`, a connectivity
outage with `TransportError`, the discriminator separates them, and a 200
response yields its body. -/
theorem C6_request_error_classification_witness :
    requestResult (.resp 404 (.str "ignored")) = .error (HttpError 404) ∧
    requestResult (.netFail "Failed to fetch") =
      .error (TransportError "Failed to fetch") ∧
    (HttpError 404).isTypeError = false ∧
    (TransportError "Failed to fetch").isTypeError = true ∧
    requestResult (.resp 200 (.str "body")) = .ok (.str "body") := by
  have h := C6_request_error_classification 404 (.str "ignored") "Failed to fetch"
  have h200 := C6_request_error_classification 200 (.str "body") "Failed to fetch"
  exact ⟨h.1 (by decide), h.2.1, h.2.2.1, h.2.2.2.1, h200.2.2.2.2 (by decide)⟩

/-- Counterexample for C4 as stated: with `set` at time 0 and `ttl = 10`
the stored expiry is `10`; a read at time `10` — which is `≥` the stored
expiry — still returns the value, because the source evicts only when
`Date.now() > data.expiry` (strictly). -/
theorem C4_counterexample :
    0 + 10 ≤ 10 ∧
    (storageGet (storageSet [] "k" (.str "v") (some 10) 0) "k" 10).1 =
      some (.str "v") := by
  refine ⟨by decide, by decide⟩

/-- Claim C4 as amended (corrected): for every key, value and *nonzero*
ttl, `set(k, v, ttl)` followed immediately by `get(k)` returns `v`; and
every read at a time *strictly greater than* the stored expiry
`now + ttl` returns absent and removes the namespaced key `qp_<k>` from
the backing store (lazy, read-triggered eviction). -/
theorem C4_cache_ttl (st : Store) (k : String) (v : JsVal) (ttl now t : Nat)
    (httl : ttl ≠ 0) (ht : now + ttl < t) :
    (storageGet (storageSet st k v (some ttl) now) k now).1 = some v ∧
    storageGet (storageSet st k v (some ttl) now) k t =
      (none, removeItem (storageSet st k v (some ttl) now) ("qp_" ++ k)) ∧
    getItem ((storageGet (storageSet st k v (some ttl) now) k t).2)
      ("qp_" ++ k) = none := by
  have hset : getItem (storageSet st k v (some ttl) now) ("qp_" ++ k) =
      some ⟨v, some (now + ttl)⟩ := by
    unfold storageSet
    rw [getItem_setItem_self]
    simp [jsTruthyNum, httl]
  have htr : jsTruthyNum (some (now + ttl)) = true := by
    simp [jsTruthyNum]
    omega
  refine ⟨?_, ?_, ?_⟩
  · unfold storageGet
    rw [hset]
    simp [htr]
  · unfold storageGet
    rw [hset]
    simp [htr]
    omega
  · unfold storageGet
    rw [hset]
    simp only [htr, Bool.true_and]
    rw [if_pos (by simpa using ht)]
    exact getItem_removeItem_self _ _

/-- Witness for C4 (amended) at `k="k"`, `v="v"`, `ttl=10`, write time 0,
read time 11. -/
theorem C4_cache_ttl_witness :
    (storageGet (storageSet [] "k" (.str "v") (some 10) 0) "k" 0).1 =
      some (.str "v") ∧
    storageGet (storageSet [] "k" (.str "v") (some 10) 0) "k" 11 =
      (none, removeItem (storageSet [] "k" (.str "v") (some 10) 0) ("qp_" ++ "k")) ∧
    getItem ((storageGet (storageSet [] "k" (.str "v") (some 10) 0) "k" 11).2)
      ("qp_" ++ "k") = none :=
  C4_cache_ttl [] "k" (.str "v") 10 0 11 (by decide) (by decide)

theorem debounceRun_cons_skip {α β : Type} (wait : Nat) (e : CallEv α β)
    (rest : List (CallEv α β)) (due : Nat) (a : α) (h : ¬ due ≤ e.time) :
    debounceRun wait (e :: rest) (some (due, a)) =
      debounceRun wait rest (some (e.time + wait, e.args)) := by
  simp [debounceRun, h]

theorem debounceRun_cons_none {α β : Type} (wait : Nat) (e : CallEv α β)
    (rest : List (CallEv α β)) :
    debounceRun wait (e :: rest) none =
      debounceRun wait rest (some (e.time + wait, e.args)) := by
  simp [debounceRun]

theorem debounceRun_nil_pending {α β : Type} (wait due : Nat) (a : α) :
    debounceRun (β := β) wait [] (some (due, a)) = [⟨due, a, none⟩] := rfl

/-- Claim C7 (confirmed): five wrapper invocations, each less than
`windowMs` after the previous, produce exactly one underlying call, fired
`windowMs` after the fifth invocation and with the fifth invocation's
arguments. -/
theorem C7_debounce_coalesces {α β : Type} (wait : Nat)
    (e1 e2 e3 e4 e5 : CallEv α β)
    (_o12 : e1.time ≤ e2.time) (_o23 : e2.time ≤ e3.time)
    (_o34 : e3.time ≤ e4.time) (_o45 : e4.time ≤ e5.time)
    (g12 : e2.time < e1.time + wait) (g23 : e3.time < e2.time + wait)
    (g34 : e4.time < e3.time + wait) (g45 : e5.time < e4.time + wait) :
    debounceRun wait [e1, e2, e3, e4, e5] none =
      [⟨e5.time + wait, e5.args, none⟩] := by
  rw [debounceRun_cons_none,
    debounceRun_cons_skip _ _ _ _ _ (by omega),
    debounceRun_cons_skip _ _ _ _ _ (by omega),
    debounceRun_cons_skip _ _ _ _ _ (by omega),
    debounceRun_cons_skip _ _ _ _ _ (by omega),
    debounceRun_nil_pending]

/-- Witness for C7: five calls at times 0-4 with window 10 produce the
single underlying call at time 14 with the fifth call's arguments. -/
theorem C7_debounce_coalesces_witness :
    debounceRun 10
      [(⟨0, "a1", "r"⟩ : CallEv String String), ⟨1, "a2", "r"⟩,
        ⟨2, "a3", "r"⟩, ⟨3, "a4", "r"⟩, ⟨4, "a5", "r"⟩] none =
      [⟨4 + 10, "a5", none⟩] :=
  C7_debounce_coalesces 10 ⟨0, "a1", "r"⟩ ⟨1, "a2", "r"⟩ ⟨2, "a3", "r"⟩
    ⟨3, "a4", "r"⟩ ⟨4, "a5", "r"⟩ (by decide) (by decide) (by decide)
    (by decide) (by decide) (by decide) (by decide) (by decide)

/-- Counterexample for C9 as stated: the debounce wrapper does *not*
preserve the calling context.  A single invocation with receiver
`"receiver"` leads to an underlying call whose receiver is `none` (the
global object), because line 75 invokes `func(...args)` as a plain call
rather than through `func.apply`. -/
theorem C9_counterexample :
    debounceRun 10 [(⟨0, "args", "receiver"⟩ : CallEv String String)] none =
      [⟨10, "args", none⟩] ∧
    (none : Option String) ≠ some "receiver" := by
  refine ⟨by decide, by decide⟩

/-- Claim C9 as amended (corrected): the throttle wrapper passes the
underlying function both the arguments and the calling context of the
invocation that fires it (`func.apply(context, args)`, lines 88-91), and
every one of its underlying calls arises from such an invocation; the
debounce wrapper passes the arguments of the most recent invocation but
always invokes the function with no receiver (plain `func(...args)`,
line 75), so the calling context is lost. -/
theorem C9_context_preservation :
    (∀ (α β : Type) (limit : Nat) (l : List (CallEv α β)) (s : ThrottleState)
      (f : FireEv α β), f ∈ throttleRun limit l s →
      ∃ e, e ∈ l ∧ f = ⟨e.time, e.args, some e.recv⟩) ∧
    (∀ (α β : Type) (wait : Nat) (l : List (CallEv α β))
      (p : Option (Nat × α)) (f : FireEv α β), f ∈ debounceRun wait l p →
      f.recv = none) ∧
    (∀ (α β : Type) (wait : Nat) (e : CallEv α β),
      debounceRun wait [e] none = [⟨e.time + wait, e.args, none⟩]) := by
  refine ⟨?_, ?_, ?_⟩
  · intro α β limit l
    induction l with
    | nil => intro s f hf; simp [throttleRun] at hf
    | cons e rest ih =>
      intro s f hf
      rw [throttleRun] at hf
      set s1 : ThrottleState :=
        match s.resetAt with
        | some r => if r ≤ e.time then ⟨false, none⟩ else s
        | none => s with hs1
      by_cases hth : s1.inThrottle
      · rw [if_pos hth] at hf
        obtain ⟨e', he', hfe⟩ := ih s1 f hf
        exact ⟨e', List.mem_cons_of_mem _ he', hfe⟩
      · rw [if_neg hth] at hf
        rcases List.mem_cons.mp hf with h | h
        · exact ⟨e, List.mem_cons_self _ _, h⟩
        · obtain ⟨e', he', hfe⟩ := ih _ f h
          exact ⟨e', List.mem_cons_of_mem _ he', hfe⟩
  · intro α β wait l
    induction l with
    | nil =>
      intro p f hf
      match p with
      | none => simp [debounceRun] at hf
      | some (due, a) =>
        rw [debounceRun_nil_pending] at hf
        simp at hf
        rw [hf]
    | cons e rest ih =>
      intro p f hf
      match p with
      | none =>
        rw [debounceRun_cons_none] at hf
        exact ih _ f hf
      | some (due, a) =>
        by_cases hd : due ≤ e.time
        · rw [debounceRun] at hf
          simp only [hd, if_true] at hf
          rcases List.mem_cons.mp hf with h | h
          · rw [h]
          · exact ih _ f h
        · rw [debounceRun_cons_skip _ _ _ _ _ hd] at hf
          exact ih _ f hf
  · intro α β wait e
    rw [debounceRun_cons_none, debounceRun_nil_pending]

/-- Witness for C9 (amended): a fired throttle call traces back to its
invocation with context preserved; a debounce underlying call has no
receiver. -/
theorem C9_context_preservation_witness :
    (∃ e, e ∈ [(⟨0, "a", "r"⟩ : CallEv String String)] ∧
      (⟨0, "a", some "r"⟩ : FireEv String String) =
        ⟨e.time, e.args, some e.recv⟩) ∧
    (⟨10, "args", (none : Option String)⟩ : FireEv String String).recv = none :=
  ⟨C9_context_preservation.1 String String 10 [⟨0, "a", "r"⟩] throttleInit
      ⟨0, "a", some "r"⟩ (by decide),
   C9_context_preservation.2.1 String String 10
      [(⟨0, "args", "receiver"⟩ : CallEv String String)] none
      ⟨10, "args", none⟩ (by decide)⟩

theorem throttleRun_first {α β : Type} (limit : Nat) (e : CallEv α β)
    (rest : List (CallEv α β)) :
    throttleRun limit (e :: rest) throttleInit =
      ⟨e.time, e.args, some e.recv⟩ ::
        throttleRun limit rest ⟨true, some (e.time + limit)⟩ := by
  simp [throttleRun, throttleInit]

theorem throttleRun_drop {α β : Type} (limit : Nat) (e : CallEv α β)
    (rest : List (CallEv α β)) (r : Nat) (h : e.time < r) :
    throttleRun limit (e :: rest) ⟨true, some r⟩ =
      throttleRun limit rest ⟨true, some r⟩ := by
  simp [throttleRun, Nat.not_le.mpr h]

theorem throttleRun_expire {α β : Type} (limit : Nat) (e : CallEv α β)
    (rest : List (CallEv α β)) (r : Nat) (h : r ≤ e.time) :
    throttleRun limit (e :: rest) ⟨true, some r⟩ =
      ⟨e.time, e.args, some e.recv⟩ ::
        throttleRun limit rest ⟨true, some (e.time + limit)⟩ := by
  simp [throttleRun, h]

/-- Counterexample for C8 as stated: with `windowMs = 10`, invoking the
wrapper at times 0, 9, 18, 27 — every gap (9) below `windowMs`, all
invocations within the `3×windowMs = 30` span — yields only 2 underlying
calls (at 0 and 18), not 3: the fires are the call at 0 and then the
first call at or after each window expiry, which can drift by almost a
whole gap per window. -/
theorem C8_counterexample :
    9 < 10 ∧ 27 < 3 * 10 ∧
    (throttleRun 10
      [(⟨0, "a", "r"⟩ : CallEv String String), ⟨9, "b", "r"⟩,
        ⟨18, "c", "r"⟩, ⟨27, "d", "r"⟩] throttleInit).length = 2 := by
  refine ⟨by decide, by decide, by decide⟩

/-- Claim C8 as amended (corrected): the first invocation in a window
fires immediately and starts the window; every further invocation
strictly within the window is dropped entirely; an invocation landing
exactly at window expiry counts as the start of the next window.
Invoking at a rate merely faster than `windowMs` does *not* always give
exactly 3 underlying calls in `3×windowMs` (see the counterexample); at a
rate of one invocation every half window, invoking for `3×windowMs` does
yield exactly 3 underlying calls, one starting each window. -/
theorem C8_throttle_windows :
    (∀ (α β : Type) (limit : Nat) (e : CallEv α β) (rest : List (CallEv α β)),
      throttleRun limit (e :: rest) throttleInit =
        ⟨e.time, e.args, some e.recv⟩ ::
          throttleRun limit rest ⟨true, some (e.time + limit)⟩) ∧
    (∀ (α β : Type) (limit : Nat) (e : CallEv α β) (rest : List (CallEv α β))
      (r : Nat), e.time < r →
      throttleRun limit (e :: rest) ⟨true, some r⟩ =
        throttleRun limit rest ⟨true, some r⟩) ∧
    (∀ (α β : Type) (limit : Nat) (e : CallEv α β) (rest : List (CallEv α β))
      (r : Nat), r ≤ e.time →
      throttleRun limit (e :: rest) ⟨true, some r⟩ =
        ⟨e.time, e.args, some e.recv⟩ ::
          throttleRun limit rest ⟨true, some (e.time + limit)⟩) ∧
    (∀ (α β : Type) (h : Nat), 0 < h →
      ∀ (a1 a2 a3 a4 a5 a6 : α) (r1 r2 r3 r4 r5 r6 : β),
      throttleRun (2 * h)
        [⟨0, a1, r1⟩, ⟨h, a2, r2⟩, ⟨2 * h, a3, r3⟩,
          ⟨3 * h, a4, r4⟩, ⟨4 * h, a5, r5⟩, ⟨5 * h, a6, r6⟩] throttleInit =
        [⟨0, a1, some r1⟩, ⟨2 * h, a3, some r3⟩, ⟨4 * h, a5, some r5⟩]) := by
  refine ⟨fun α β l e rest => throttleRun_first l e rest,
    fun α β l e rest r hr => throttleRun_drop l e rest r hr,
    fun α β l e rest r hr => throttleRun_expire l e rest r hr, ?_⟩
  intro α β h hh a1 a2 a3 a4 a5 a6 r1 r2 r3 r4 r5 r6
  rw [throttleRun_first]
  rw [throttleRun_drop _ _ _ _ (by simp only [CallEv.time]; omega)]
  rw [throttleRun_expire _ _ _ _ (by simp only [CallEv.time]; omega)]
  rw [throttleRun_drop _ _ _ _ (by simp only [CallEv.time]; omega)]
  rw [throttleRun_expire _ _ _ _ (by simp only [CallEv.time]; omega)]
  rw [throttleRun_drop _ _ _ _ (by simp only [CallEv.time]; omega)]
  rfl

/-- Witness for C8 (amended) at `windowMs = 10`, invocations every 5:
exactly the three window-starting calls fire, context preserved. -/
theorem C8_throttle_windows_witness :
    throttleRun (2 * 5)
      [(⟨0, "a1", "r"⟩ : CallEv String String), ⟨5, "a2", "r"⟩,
        ⟨2 * 5, "a3", "r"⟩, ⟨3 * 5, "a4", "r"⟩, ⟨4 * 5, "a5", "r"⟩,
        ⟨5 * 5, "a6", "r"⟩] throttleInit =
      [⟨0, "a1", some "r"⟩, ⟨2 * 5, "a3", some "r"⟩, ⟨4 * 5, "a5", some "r"⟩] :=
  C8_throttle_windows.2.2.2 String String 5 (by decide) "a1" "a2" "a3" "a4"
    "a5" "a6" "r" "r" "r" "r" "r" "r"

theorem wsDisconnect_reconnectAttempts (s : WSState) :
    (wsDisconnect s).reconnectAttempts = s.reconnectAttempts := by
  unfold wsDisconnect
  match s.connection with
  | some _ => rfl
  | none => rfl

/-- Claim C1 (code bug): the claim — and §4.1 of the spec — requires
`disconnect()` to suppress the automatic-reconnect policy, but the code
has no suppression: `disconnect()` (lines 535-540) only closes the socket
and nulls `this.connection`, while the `onclose` handler (lines 524-528)
unconditionally calls `attemptReconnect(url)` for every close event,
caller-initiated or not.  Evaluating the model on the failing trace —
connect, open, `disconnect()`, then the close event that the `close()`
call triggers — shows the channel increments its attempt counter and
schedules a reconnect timer for 5000 ms later (due 5015), exactly the
behaviour the claim forbids. -/
theorem C1_disconnect_schedules_reconnect :
    wsRun ⟨5, 5000⟩
      [(0, .userConnect), (5, .wsOpen), (10, .userDisconnect), (15, .wsClose)] =
      ⟨none, 1, [5015]⟩ ∧
    (wsRun ⟨5, 5000⟩
      [(0, .userConnect), (5, .wsOpen), (10, .userDisconnect), (15, .wsClose)]).timers ≠
      [] := by
  refine ⟨by decide, by decide⟩

/-- Claim C2 (confirmed): every close handled with
`attempt < maxAttempts` increments the counter by exactly 1 and schedules
exactly one retry timer due `retryIntervalMs` later; at
`attempt = maxAttempts` no retry is scheduled and the counter is
unchanged; a successful Open transition resets the counter to 0, and it
is the only stimulus that ever lowers it; hence `attempt` never exceeds
`maxAttempts` along any trace of stimuli. -/
theorem C2_attempt_counter (cfg : WSConfig) (now : Nat) (s : WSState) :
    (s.reconnectAttempts < cfg.maxReconnectAttempts →
      handleClose cfg now s =
        ⟨s.connection.map (fun _ => .CLOSED), s.reconnectAttempts + 1,
          s.timers ++ [now + cfg.reconnectInterval]⟩) ∧
    (s.reconnectAttempts = cfg.maxReconnectAttempts →
      handleClose cfg now s =
        ⟨s.connection.map (fun _ => .CLOSED), s.reconnectAttempts, s.timers⟩) ∧
    (handleOpen s).reconnectAttempts = 0 ∧
    (∀ ev : WSEvent, s.reconnectAttempts ≤ cfg.maxReconnectAttempts →
      (wsStep cfg s (now, ev)).reconnectAttempts ≤ cfg.maxReconnectAttempts) ∧
    (∀ ev : WSEvent,
      (wsStep cfg s (now, ev)).reconnectAttempts < s.reconnectAttempts →
      ev = WSEvent.wsOpen) := by
  have hfire := fireDueTimers_reconnectAttempts now s
  have hconn : (wsStep cfg s (now, .userConnect)).reconnectAttempts =
      s.reconnectAttempts := by
    show (wsConnect _).reconnectAttempts = _
    rw [wsConnect_reconnectAttempts, hfire]
  have hdisc : (wsStep cfg s (now, .userDisconnect)).reconnectAttempts =
      s.reconnectAttempts := by
    show (wsDisconnect _).reconnectAttempts = _
    rw [wsDisconnect_reconnectAttempts, hfire]
  have hop : (wsStep cfg s (now, .wsOpen)).reconnectAttempts = 0 := rfl
  have hclose : (wsStep cfg s (now, .wsClose)).reconnectAttempts =
      if s.reconnectAttempts < cfg.maxReconnectAttempts then
        s.reconnectAttempts + 1
      else s.reconnectAttempts := by
    show (handleClose cfg now (fireDueTimers now s)).reconnectAttempts = _
    unfold handleClose attemptReconnect
    by_cases hlt : s.reconnectAttempts < cfg.maxReconnectAttempts
    · simp [hfire, hlt]
    · simp [hfire, hlt]
  refine ⟨?_, ?_, rfl, ?_, ?_⟩
  · intro hlt
    unfold handleClose attemptReconnect
    simp [hlt]
  · intro heq
    unfold handleClose attemptReconnect
    simp [heq]
  · intro ev hle
    match ev with
    | .userConnect => rw [hconn]; exact hle
    | .userDisconnect => rw [hdisc]; exact hle
    | .wsOpen => rw [hop]; exact Nat.zero_le _
    | .wsClose =>
      rw [hclose]
      by_cases hlt : s.reconnectAttempts < cfg.maxReconnectAttempts
      · rw [if_pos hlt]; omega
      · rw [if_neg hlt]; exact hle
  · intro ev hdec
    match ev with
    | .wsOpen => rfl
    | .userConnect => rw [hconn] at hdec; omega
    | .userDisconnect => rw [hdisc] at hdec; omega
    | .wsClose =>
      rw [hclose] at hdec
      by_cases hlt : s.reconnectAttempts < cfg.maxReconnectAttempts
      · rw [if_pos hlt] at hdec; omega
      · rw [if_neg hlt] at hdec; omega

/-- Witness for C2 at `maxAttempts = 5`, `interval = 5000`: a close at
`attempt = 3` increments to 4 and schedules one timer due 5000 later; a
close at `attempt = 5` schedules nothing; an open resets 3 to 0; the
bound is preserved by a close; and the only counter-lowering stimulus is
the open event. -/
theorem C2_attempt_counter_witness :
    handleClose ⟨5, 5000⟩ 0 ⟨some .CLOSED, 3, []⟩ =
      ⟨some .CLOSED, 4, [5000]⟩ ∧
    handleClose ⟨5, 5000⟩ 0 ⟨some .CLOSED, 5, []⟩ =
      ⟨some .CLOSED, 5, []⟩ ∧
    (handleOpen ⟨some .CONNECTING, 3, []⟩).reconnectAttempts = 0 ∧
    (wsStep ⟨5, 5000⟩ ⟨some .CLOSED, 5, []⟩ (0, .wsClose)).reconnectAttempts ≤ 5 ∧
    WSEvent.wsOpen = WSEvent.wsOpen := by
  have h3 := C2_attempt_counter ⟨5, 5000⟩ 0 ⟨some .CLOSED, 3, []⟩
  have h5 := C2_attempt_counter ⟨5, 5000⟩ 0 ⟨some .CLOSED, 5, []⟩
  refine ⟨?_, ?_, h3.2.2.1, h5.2.2.2.1 .wsClose (by decide), ?_⟩
  · have := h3.1 (by decide)
    simpa using this
  · have := h5.2.1 rfl
    simpa using this
  · exact h3.2.2.2.2 .wsOpen (by decide)

/-- Counterexample for C3 as stated: `connect(url)` never cancels a
reconnect timer (no handle is stored), so a `connect()` call at t=100
while a reconnect timer (due 5010) is pending leaves that timer in place,
and a second failed connection then schedules a second timer: at t=200
two reconnect timers (due 5010 and 5200) are outstanding at once. -/
theorem C3_counterexample :
    (wsRun ⟨5, 5000⟩
      [(0, .userConnect), (10, .wsClose), (100, .userConnect)]).timers =
      [5010] ∧
    (outstandingTimers 200 (wsRun ⟨5, 5000⟩
      [(0, .userConnect), (10, .wsClose), (100, .userConnect),
        (200, .wsClose)])).length = 2 := by
  refine ⟨by decide, by decide⟩

/-- Claim C3 as amended (corrected): a `connect()` call while Reconnecting
attempts the connection immediately, but cancels nothing — `connect`
leaves the pending timers exactly as they are, so more than one reconnect
timer can be outstanding at a time (witnessed by the 2-timer trace); a
reconnect timer that fires when the channel is already Open is a no-op. -/
theorem C3_connect_cancels_nothing (s : WSState) :
    (wsConnect s).timers = s.timers ∧
    (s.connection ≠ some .OPEN → (wsConnect s).connection = some .CONNECTING) ∧
    (s.connection = some .OPEN → wsConnect s = s) ∧
    2 ≤ (outstandingTimers 200 (wsRun ⟨5, 5000⟩
      [(0, .userConnect), (10, .wsClose), (100, .userConnect),
        (200, .wsClose)])).length := by
  refine ⟨wsConnect_timers s, ?_, ?_, by decide⟩
  · intro hne
    unfold wsConnect
    match h : s.connection with
    | some .OPEN => exact absurd h hne
    | some .CONNECTING => rfl
    | some .CLOSED => rfl
    | none => rfl
  · intro hco
    unfold wsConnect
    rw [hco]

/-- Witness for C3 (amended) on a Reconnecting state with a pending timer
due 5010: `connect()` keeps the timer and goes straight to CONNECTING. -/
theorem C3_connect_cancels_nothing_witness :
    (wsConnect ⟨some .CLOSED, 1, [5010]⟩).timers = [5010] ∧
    (wsConnect ⟨some .CLOSED, 1, [5010]⟩).connection = some .CONNECTING :=
  ⟨(C3_connect_cancels_nothing ⟨some .CLOSED, 1, [5010]⟩).1,
   (C3_connect_cancels_nothing ⟨some .CLOSED, 1, [5010]⟩).2.1 (by decide)⟩

end QP
